import Mathlib

/-!
Shallow embedding of the review-aggregation core of the tour-booking
application: the review schema (validation, unique compound index on
tour+user), the `calcAverageRatings` aggregation, the `post('save')`
hook, the pre/post `/^findOneAnd/` hooks, and the tour schema's
`ratingsAverage` setter and `pre(/^find/)` secret-tour filter.

Mongo ObjectIds are modelled as naturals; JS numbers carrying ratings
and averages are modelled as rationals (all arithmetic involved is
exact decimal/fraction arithmetic well inside double precision).
Document fields that may be absent are `Option`s.
-/

namespace Natours

abbrev ObjectId := Nat

/-- Errors surfaced to callers of the store operations. -/
inductive JsError where
  | validationError (msg : String) : JsError
  | duplicateKey : JsError
  | typeError (msg : String) : JsError
deriving DecidableEq, Repr

/-- A review document: fields of `reviewSchema` (`createdAt` omitted;
it carries no behaviour the claims touch). Every field may be absent
until validation has passed. -/
structure ReviewDoc where
  review : Option String
  rating : Option ℚ
  tour : Option ObjectId
  user : Option ObjectId
deriving DecidableEq, Repr

/-- The slice of a tour document the review core reads and writes:
`_id`, the two denormalized summary fields, and `secretTour`. -/
structure TourDoc where
  id : ObjectId
  ratingsAverage : ℚ
  ratingsQuantity : Nat
  secretTour : Bool
deriving DecidableEq, Repr

/-- The persistent state: the review collection and the tour collection. -/
structure DB where
  reviews : List ReviewDoc
  tours : List TourDoc
deriving DecidableEq, Repr

/-! ## Review validation (`reviewSchema` path options) -/

/-- Mongoose `required: true` on a `String` path: the value must be
present and non-empty. -/
def requiredNonEmpty : Option String → Bool
  | none => false
  | some s => !s.isEmpty

/-- The `rating` path has `min: 1` and `max: 5` validators but no
`required`, so an absent rating passes validation. -/
def ratingOk : Option ℚ → Bool
  | none => true
  | some q => decide (1 ≤ q) && decide (q ≤ 5)

/-- Full document validation run by `save`: `review` required non-empty,
`rating` bounded when present, `tour` and `user` required. -/
def validateReview (d : ReviewDoc) : Bool :=
  requiredNonEmpty d.review && ratingOk d.rating && d.tour.isSome && d.user.isSome

/-! ## The aggregation pipeline of `calcAverageRatings` -/

/-- The `$match: { tour: tourId }` stage. -/
def matchTour (tourId : ObjectId) (reviews : List ReviewDoc) : List ReviewDoc :=
  reviews.filter (fun r => r.tour == some tourId)

/-- The numeric values `$avg: '$rating'` aggregates over: documents
without a `rating` contribute nothing. -/
def ratedValues (reviews : List ReviewDoc) : List ℚ :=
  reviews.filterMap (fun r => r.rating)

/-- `$avg` over the matched documents: `null` (here `none`) when no
document carries a numeric rating, otherwise the arithmetic mean of the
ratings that are present. -/
def avgRating (reviews : List ReviewDoc) : Option ℚ :=
  let vals := ratedValues reviews
  if vals.isEmpty then none else some (vals.sum / (vals.length : ℚ))

/-- One `$group` bucket: `nRating = $sum: 1`, `avgRating = $avg: '$rating'`. -/
structure AggGroup where
  nRating : Nat
  avgRating : Option ℚ
deriving DecidableEq, Repr

/-- The whole pipeline `[$match, $group]`. All matched documents share
the group key `'$tour'`, so the result is one bucket, or none when the
match is empty. -/
def aggregateStats (reviews : List ReviewDoc) (tourId : ObjectId) : List AggGroup :=
  let matched := matchTour tourId reviews
  if matched.isEmpty then [] else [⟨matched.length, avgRating matched⟩]

/-! ## The tour summary write (`Tour.findByIdAndUpdate`) -/

/-- JS `Math.round`: round half away from zero for positive arguments,
i.e. `⌊x + 1/2⌋` (which agrees with `Math.round` on every rational). -/
def jsRound (q : ℚ) : ℤ := ⌊q + 1/2⌋

/-- The `ratingsAverage` path setter: `(val) => Math.round(val * 10) / 10`. -/
def ratingsAverageSet (val : ℚ) : ℚ := (jsRound (val * 10) : ℚ) / 10

/-- Applying the update payload `{ ratingsQuantity, ratingsAverage }` to
one tour document. The average is written through the path setter; a
`null` average (`none`, the all-unrated aggregate) behaves as JS
`Math.round(null * 10) / 10 = 0`, which is `ratingsAverageSet 0`. -/
def tourUpdateDoc (t : TourDoc) (quantity : Nat) (avg : Option ℚ) : TourDoc :=
  { t with
      ratingsQuantity := quantity
      ratingsAverage := ratingsAverageSet (avg.getD 0) }

/-- `Tour.findByIdAndUpdate(tourId, payload)`: a `findOneAndUpdate`,
so the tour schema's `pre(/^find/)` hook merges the condition
`secretTour: { $ne: true }` into the id filter before execution. -/
def findByIdAndUpdateSummary (tours : List TourDoc) (tourId : ObjectId)
    (quantity : Nat) (avg : Option ℚ) : List TourDoc :=
  tours.map (fun t =>
    if t.id == tourId && !t.secretTour then tourUpdateDoc t quantity avg else t)

/-- `reviewSchema.statics.calcAverageRatings(tourId)`: run the pipeline;
when a bucket exists write its count and average, otherwise write the
defaults `ratingsQuantity: 0, ratingsAverage: 4.5`. -/
def calcAverageRatings (db : DB) (tourId : ObjectId) : DB :=
  match aggregateStats db.reviews tourId with
  | s :: _ =>
      { db with tours := findByIdAndUpdateSummary db.tours tourId s.nRating s.avgRating }
  | [] =>
      { db with tours := findByIdAndUpdateSummary db.tours tourId 0 (some (9/2)) }

/-! ## Store operations and their consistency hooks -/

/-- The observable result of one mutating store operation: the state it
leaves behind, the error surfaced to the caller (if any), and the list
of tour ids `calcAverageRatings` was invoked on while it ran. -/
structure OpOutcome where
  db : DB
  err : Option JsError
  recomputeCalls : List ObjectId
deriving DecidableEq, Repr

/-- The unique compound index `reviewSchema.index({ tour: 1, user: 1 },
{ unique: true })`: an insert whose (tour, user) key already occurs in
the collection is rejected by the store. -/
def hasDuplicateKey (reviews : List ReviewDoc) (d : ReviewDoc) : Bool :=
  reviews.any (fun r => r.tour == d.tour && r.user == d.user)

/-- `Review.create(d)`: validate, insert (the unique index may reject),
then the `post('save')` hook runs `this.constructor.calcAverageRatings
(this.tour)`. The hook's promise is not awaited by `save`, so when the
recompute fails (`recomputeOk = false`) the save still succeeds and only
the summary write is lost. -/
def createReview (db : DB) (d : ReviewDoc) (recomputeOk : Bool) : OpOutcome :=
  if !validateReview d then
    ⟨db, some (.validationError "Review validation failed"), []⟩
  else if hasDuplicateKey db.reviews d then
    ⟨db, some .duplicateKey, []⟩
  else
    let db1 : DB := { db with reviews := db.reviews ++ [d] }
    let target := d.tour.getD 0
    if recomputeOk then ⟨calcAverageRatings db1 target, none, [target]⟩
    else ⟨db1, none, [target]⟩

/-- A `findOneAnd*` operation on reviews: delete, or an update that
`$set`s any of the three mutable fields (absent payload fields keep
their value). -/
inductive ReviewMutation where
  | findOneAndDelete : ReviewMutation
  | findOneAndUpdate (text : Option String) (rating : Option ℚ)
      (tourSet : Option ObjectId) : ReviewMutation
deriving DecidableEq, Repr

/-- A simple equality filter over the reference fields, as used by the
review routes (`{ tour: ..., user: ... }`); an absent component
constrains nothing. -/
structure Filter where
  tour : Option ObjectId
  user : Option ObjectId
deriving DecidableEq, Repr

def matchesFilter (f : Filter) (r : ReviewDoc) : Bool :=
  (match f.tour with | none => true | some t => r.tour == some t) &&
  (match f.user with | none => true | some u => r.user == some u)

/-- `this.findOne()` run by the `pre(/^findOneAnd/)` hook: the first
document matching the query's filter, or `null`. -/
def findOne (reviews : List ReviewDoc) (f : Filter) : Option ReviewDoc :=
  reviews.find? (matchesFilter f)

/-- The `$set` payload of a `findOneAndUpdate` applied to a document. -/
def applySet (m : ReviewMutation) (r : ReviewDoc) : ReviewDoc :=
  match m with
  | .findOneAndDelete => r
  | .findOneAndUpdate text rating tourSet =>
      { r with
          review := match text with | none => r.review | some s => some s
          rating := match rating with | none => r.rating | some q => some q
          tour := match tourSet with | none => r.tour | some t => some t }

/-- Removing the first document matching a filter (the effect of a
`findOneAndDelete`, and the rest of the collection seen by the unique
index when the first match is re-keyed). -/
def removeFirst (reviews : List ReviewDoc) (f : Filter) : List ReviewDoc :=
  match reviews with
  | [] => []
  | r :: rs => if matchesFilter f r then rs else r :: removeFirst rs f

/-- Replacing the first document matching a filter by an updated one. -/
def replaceFirst (reviews : List ReviewDoc) (f : Filter) (d : ReviewDoc) :
    List ReviewDoc :=
  match reviews with
  | [] => []
  | r :: rs => if matchesFilter f r then d :: rs else r :: replaceFirst rs f d

/-- Executing the `findOneAnd*` query itself: Mongo mutates the first
matching document (deleting it or applying the `$set`), a no-op when
nothing matches. The unique compound index on (tour, user) is enforced
on updates too: a `$set` that re-keys the document onto a (tour, user)
pair held by another document is rejected with a duplicate-key error
(E11000) and nothing is mutated; an update leaving the key untouched
writes no new index entry and is never rejected. -/
def executeMutation (reviews : List ReviewDoc) (m : ReviewMutation)
    (f : Filter) : Except JsError (List ReviewDoc) :=
  match findOne reviews f with
  | none => .ok reviews
  | some r =>
      match m with
      | .findOneAndDelete => .ok (removeFirst reviews f)
      | _ =>
          let updated := applySet m r
          if updated.tour == r.tour then .ok (replaceFirst reviews f updated)
          else if hasDuplicateKey (removeFirst reviews f) updated then
            .error .duplicateKey
          else .ok (replaceFirst reviews f updated)

/-- A `findOneAnd*` operation wrapped in the two review-schema query
hooks: `pre` captures `this.r = await this.findOne()`, the query
executes, and on success `post` runs `await this.r.constructor
.calcAverageRatings(this.r.tour)` — with no null guard on `this.r`, so
a zero-match filter makes the post hook throw a TypeError instead of
completing quietly. When the query itself is rejected (duplicate key),
the post hook is skipped, the store is unchanged and the error is
surfaced. -/
def runFindOneAnd (db : DB) (m : ReviewMutation) (f : Filter) : OpOutcome :=
  let captured := findOne db.reviews f
  match executeMutation db.reviews m f with
  | .error e => ⟨db, some e, []⟩
  | .ok reviews1 =>
      let db1 : DB := { db with reviews := reviews1 }
      match captured with
      | none => ⟨db1, some (.typeError "Cannot read property of null"), []⟩
      | some r =>
          let target := r.tour.getD 0
          ⟨calcAverageRatings db1 target, none, [target]⟩

/-! ## Helper lemmas -/

theorem ratedValues_length_of_all_rated (rs : List ReviewDoc)
    (h : ∀ r ∈ rs, r.rating.isSome) : (ratedValues rs).length = rs.length := by
  induction rs with
  | nil => rfl
  | cons r rs ih =>
      obtain ⟨q, hq⟩ := Option.isSome_iff_exists.mp (h r (List.mem_cons_self r rs))
      simp only [ratedValues, List.filterMap_cons, hq, List.length_cons]
      exact congrArg Nat.succ (ih fun x hx => h x (List.mem_cons_of_mem _ hx))

theorem calcAverageRatings_eq_of_ne_nil (db : DB) (tid : ObjectId)
    (hne : matchTour tid db.reviews ≠ []) :
    calcAverageRatings db tid =
      { db with tours := (findByIdAndUpdateSummary db.tours tid
          (matchTour tid db.reviews).length (avgRating (matchTour tid db.reviews))) } := by
  have hempty : (matchTour tid db.reviews).isEmpty = false :=
    List.isEmpty_eq_false.mpr hne
  simp [calcAverageRatings, aggregateStats, hempty]

theorem calcAverageRatings_eq_of_nil (db : DB) (tid : ObjectId)
    (he : matchTour tid db.reviews = []) :
    calcAverageRatings db tid =
      { db with tours := findByIdAndUpdateSummary db.tours tid 0 (some (9/2)) } := by
  simp [calcAverageRatings, aggregateStats, he]

theorem mem_findByIdAndUpdateSummary (tours : List TourDoc) (tid : ObjectId)
    (quantity : Nat) (avg : Option ℚ) (t : TourDoc) (ht : t ∈ tours)
    (hid : t.id = tid) (hsec : t.secretTour = false) :
    tourUpdateDoc t quantity avg ∈ findByIdAndUpdateSummary tours tid quantity avg := by
  have hf : (fun u : TourDoc =>
      if u.id == tid && !u.secretTour then tourUpdateDoc u quantity avg else u) t
      = tourUpdateDoc t quantity avg := by
    simp [hid, hsec]
  simpa only [findByIdAndUpdateSummary, hf] using
    List.mem_map_of_mem (fun u : TourDoc =>
      if u.id == tid && !u.secretTour then tourUpdateDoc u quantity avg else u) ht

/-! ## Claim C2 -/

/-- Claim C2 (code bug): the spec promises that an update/delete by a
filter matching zero reviews is a silent no-op, but the `post` hook
dereferences the null capture. At the concrete input — store holding one
review of (tour 1, user 1), delete filter `{tour: 1, user: 3}` — the
operation makes zero recompute calls, leaves the store unchanged, and
raises a TypeError instead of completing without error. -/
theorem findOneAnd_zero_match_throws :
    runFindOneAnd
      ⟨[⟨some "good", some 5, some 1, some 1⟩], [⟨1, 4, 1, false⟩]⟩
      .findOneAndDelete ⟨some 1, some 3⟩ =
    ⟨⟨[⟨some "good", some 5, some 1, some 1⟩], [⟨1, 4, 1, false⟩]⟩,
      some (.typeError "Cannot read property of null"), []⟩ := by
  simp [runFindOneAnd, findOne, matchesFilter, executeMutation]

/-! ## Claim C3 -/

/-- Claim C3: a `findOneAnd*` mutation whose filter matches a review
captures that review before executing; whenever the mutation itself
completes (it can be rejected by the unique index when an update
re-keys the review onto an occupied (tour, user) pair, in which case
the post hook never runs), the single recompute call is on the captured
review's pre-mutation tour reference, and it runs on the post-mutation
store. -/
theorem findOneAnd_recomputes_captured_tour (db : DB) (m : ReviewMutation)
    (f : Filter) (r : ReviewDoc) (reviews1 : List ReviewDoc)
    (h : findOne db.reviews f = some r)
    (hm : executeMutation db.reviews m f = .ok reviews1) :
    runFindOneAnd db m f =
      ⟨calcAverageRatings ⟨reviews1, db.tours⟩ (r.tour.getD 0),
        none, [r.tour.getD 0]⟩ := by
  simp [runFindOneAnd, h, hm]

/-- Witness for C3: an update moves the only review of (tour 1, user 1)
to tour 2 — afterwards the filter no longer matches it — yet the
recompute call targets tour 1, the tour captured before the mutation. -/
theorem findOneAnd_recomputes_captured_tour_witness :
    findOne [ReviewDoc.mk (some "good") (some 5) (some 1) (some 1)] ⟨some 1, some 1⟩ =
      some ⟨some "good", some 5, some 1, some 1⟩ ∧
    executeMutation [⟨some "good", some 5, some 1, some 1⟩]
        (.findOneAndUpdate none none (some 2)) ⟨some 1, some 1⟩ =
      .ok [⟨some "good", some 5, some 2, some 1⟩] ∧
    runFindOneAnd ⟨[⟨some "good", some 5, some 1, some 1⟩], [⟨1, 4, 1, false⟩, ⟨2, 3, 0, false⟩]⟩
        (.findOneAndUpdate none none (some 2)) ⟨some 1, some 1⟩ =
      ⟨calcAverageRatings
          ⟨[⟨some "good", some 5, some 2, some 1⟩],
           [⟨1, 4, 1, false⟩, ⟨2, 3, 0, false⟩]⟩ 1,
        none, [1]⟩ := by
  refine ⟨by simp [findOne, matchesFilter], rfl, ?_⟩
  exact findOneAnd_recomputes_captured_tour
    ⟨[⟨some "good", some 5, some 1, some 1⟩], [⟨1, 4, 1, false⟩, ⟨2, 3, 0, false⟩]⟩
    (.findOneAndUpdate none none (some 2)) ⟨some 1, some 1⟩
    ⟨some "good", some 5, some 1, some 1⟩ [⟨some "good", some 5, some 2, some 1⟩]
    (by simp [findOne, matchesFilter]) rfl

/-! ## Claim C4 -/

/-- The invariant the unique compound index maintains: no two reviews
share a (tour, user) pair. -/
def uniqueTourUser (reviews : List ReviewDoc) : Prop :=
  reviews.Pairwise (fun a b => ¬(a.tour = b.tour ∧ a.user = b.user))

theorem calcAverageRatings_reviews_unchanged (db : DB) (tid : ObjectId) :
    (calcAverageRatings db tid).reviews = db.reviews := by
  cases hagg : aggregateStats db.reviews tid <;> simp [calcAverageRatings, hagg]

/-- Claim C4: creating a review whose (tour, user) pair already occurs
in the store is rejected by the unique compound index: the duplicate-key
error is surfaced to the caller, the store (both the existing reviews
and every tour's summary) is left unchanged, and no recompute runs.
Moreover any create attempt on a store in which all (tour, user) pairs
are distinct leaves them distinct: at most one review per pair ever
exists. -/
theorem create_duplicate_review_rejected (db : DB) (d : ReviewDoc)
    (recomputeOk : Bool) (hv : validateReview d = true)
    (hd : hasDuplicateKey db.reviews d = true) (hu : uniqueTourUser db.reviews) :
    createReview db d recomputeOk = ⟨db, some .duplicateKey, []⟩ ∧
    ∀ (d2 : ReviewDoc) (rOk2 : Bool),
      uniqueTourUser (createReview db d2 rOk2).db.reviews := by
  refine ⟨by simp [createReview, hv, hd], fun d2 rOk2 => ?_⟩
  cases hv2 : validateReview d2 with
  | false =>
      have hr : (createReview db d2 rOk2).db.reviews = db.reviews := by
        simp [createReview, hv2]
      rw [hr]; exact hu
  | true =>
      cases hd2 : hasDuplicateKey db.reviews d2 with
      | true =>
          have hr : (createReview db d2 rOk2).db.reviews = db.reviews := by
            simp [createReview, hv2, hd2]
          rw [hr]; exact hu
      | false =>
          have hfresh : ∀ r ∈ db.reviews, ¬(r.tour = d2.tour ∧ r.user = d2.user) := by
            intro r hr hcon
            have hdup : hasDuplicateKey db.reviews d2 = true := by
              simp only [hasDuplicateKey, List.any_eq_true]
              exact ⟨r, hr, by simp [hcon.1, hcon.2]⟩
            rw [hd2] at hdup
            exact Bool.noConfusion hdup
          have happ : uniqueTourUser (db.reviews ++ [d2]) := by
            rw [uniqueTourUser, List.pairwise_append]
            refine ⟨hu, List.pairwise_singleton _ _, ?_⟩
            intro a ha b hb
            rw [List.mem_singleton] at hb
            subst hb
            exact hfresh a ha
          cases rOk2 with
          | true =>
              have hr : (createReview db d2 true).db.reviews = db.reviews ++ [d2] := by
                simp [createReview, hv2, hd2, calcAverageRatings_reviews_unchanged]
              rw [hr]; exact happ
          | false =>
              have hr : (createReview db d2 false).db.reviews = db.reviews ++ [d2] := by
                simp [createReview, hv2, hd2]
              rw [hr]; exact happ

/-- Witness for C4: user 1 already reviewed tour 1; a second review by
the same user on the same tour is rejected and the state is unchanged. -/
theorem create_duplicate_review_rejected_witness :
    validateReview ⟨some "again", none, some 1, some 1⟩ = true ∧
    hasDuplicateKey [⟨some "good", none, some 1, some 1⟩]
      ⟨some "again", none, some 1, some 1⟩ = true ∧
    uniqueTourUser [⟨some "good", none, some 1, some 1⟩] ∧
    createReview ⟨[⟨some "good", none, some 1, some 1⟩], [⟨1, 4, 1, false⟩]⟩
        ⟨some "again", none, some 1, some 1⟩ true =
      ⟨⟨[⟨some "good", none, some 1, some 1⟩], [⟨1, 4, 1, false⟩]⟩,
        some .duplicateKey, []⟩ := by
  refine ⟨by decide, by decide, List.pairwise_singleton _ _, ?_⟩
  exact (create_duplicate_review_rejected
    ⟨[⟨some "good", none, some 1, some 1⟩], [⟨1, 4, 1, false⟩]⟩
    ⟨some "again", none, some 1, some 1⟩ true (by decide) (by decide)
    (List.pairwise_singleton _ _)).1

/-! ## Claim C6 -/

/-- Claim C6: on create, the recompute is invoked only after the insert:
with a working recompute the aggregation already sees the appended
review, and when the recompute fails the save still reports no error,
the review is persisted in the store, and the tours (hence the summary)
are exactly as before — the failure never rolls the review back. -/
theorem create_recompute_after_persist (db : DB) (d : ReviewDoc)
    (hv : validateReview d = true) (hnd : hasDuplicateKey db.reviews d = false) :
    createReview db d true =
      ⟨calcAverageRatings ⟨db.reviews ++ [d], db.tours⟩ (d.tour.getD 0),
        none, [d.tour.getD 0]⟩ ∧
    createReview db d false = ⟨⟨db.reviews ++ [d], db.tours⟩, none, [d.tour.getD 0]⟩ := by
  constructor <;> simp [createReview, hv, hnd]

/-- Witness for C6: a valid fresh review on tour 1; with the recompute
failing, the review is in the store, no error is surfaced, and the
tour's summary keeps its prior (now stale) values. -/
theorem create_recompute_after_persist_witness :
    validateReview ⟨some "nice", none, some 1, some 2⟩ = true ∧
    hasDuplicateKey [⟨some "good", none, some 1, some 1⟩]
      ⟨some "nice", none, some 1, some 2⟩ = false ∧
    createReview ⟨[⟨some "good", none, some 1, some 1⟩], [⟨1, 4, 1, false⟩]⟩
        ⟨some "nice", none, some 1, some 2⟩ false =
      ⟨⟨[⟨some "good", none, some 1, some 1⟩, ⟨some "nice", none, some 1, some 2⟩],
          [⟨1, 4, 1, false⟩]⟩, none, [1]⟩ := by
  refine ⟨by decide, by decide, ?_⟩
  exact (create_recompute_after_persist
    ⟨[⟨some "good", none, some 1, some 1⟩], [⟨1, 4, 1, false⟩]⟩
    ⟨some "nice", none, some 1, some 2⟩ (by decide) (by decide)).2

/-! ## Claim C10 -/

theorem mem_tours_calc_of_secret (db : DB) (tid : ObjectId) (t : TourDoc)
    (ht : t ∈ db.tours) (hs : t.secretTour = true) :
    t ∈ (calcAverageRatings db tid).tours := by
  have hmem : ∀ (q : Nat) (avg : Option ℚ), t ∈ findByIdAndUpdateSummary db.tours tid q avg := by
    intro q avg
    have hf : (fun u : TourDoc =>
        if u.id == tid && !u.secretTour then tourUpdateDoc u q avg else u) t = t := by
      simp [hs]
    simpa only [findByIdAndUpdateSummary, hf] using
      List.mem_map_of_mem (fun u : TourDoc =>
        if u.id == tid && !u.secretTour then tourUpdateDoc u q avg else u) ht
  cases hagg : aggregateStats db.reviews tid with
  | nil => simpa only [calcAverageRatings, hagg] using hmem 0 (some (9/2))
  | cons s rest => simpa only [calcAverageRatings, hagg] using hmem s.nRating s.avgRating

/-- Claim C10: a tour with `secretTour = true` is invisible to the
summary write (the tour schema's `pre(/^find/)` hook adds
`secretTour: { $ne: true }` to `findByIdAndUpdate`), so the exact same
tour document — prior `ratingsQuantity` and `ratingsAverage` included —
survives any recompute and any review mutation. -/
theorem secret_tour_summary_never_updated (db : DB) (t : TourDoc)
    (ht : t ∈ db.tours) (hs : t.secretTour = true) :
    (∀ tid, t ∈ (calcAverageRatings db tid).tours) ∧
    (∀ (d : ReviewDoc) (recomputeOk : Bool),
      t ∈ (createReview db d recomputeOk).db.tours) ∧
    (∀ (m : ReviewMutation) (f : Filter), t ∈ (runFindOneAnd db m f).db.tours) := by
  refine ⟨fun tid => mem_tours_calc_of_secret db tid t ht hs, fun d rOk => ?_, fun m f => ?_⟩
  · simp only [createReview]
    split
    · exact ht
    · split
      · exact ht
      · split
        · exact mem_tours_calc_of_secret ⟨db.reviews ++ [d], db.tours⟩ _ t ht hs
        · exact ht
  · simp only [runFindOneAnd]
    cases hex : executeMutation db.reviews m f with
    | error e => simp only [hex]; exact ht
    | ok reviews1 =>
        simp only [hex]
        cases hfo : findOne db.reviews f with
        | none => simp only [hfo]; exact ht
        | some r =>
            simp only [hfo]
            exact mem_tours_calc_of_secret ⟨reviews1, db.tours⟩ _ t ht hs

/-- Witness for C10: a secret tour with stale summary (quantity 7,
average 4) keeps exactly those values across a recompute that would
otherwise overwrite them. -/
theorem secret_tour_summary_never_updated_witness :
    (⟨1, 4, 7, true⟩ : TourDoc) ∈
      (⟨[⟨some "good", some 5, some 1, some 1⟩], [⟨1, 4, 7, true⟩]⟩ : DB).tours ∧
    (⟨1, 4, 7, true⟩ : TourDoc) ∈
      (calcAverageRatings ⟨[⟨some "good", some 5, some 1, some 1⟩], [⟨1, 4, 7, true⟩]⟩ 1).tours :=
  ⟨List.mem_singleton.mpr rfl,
    (secret_tour_summary_never_updated
      ⟨[⟨some "good", some 5, some 1, some 1⟩], [⟨1, 4, 7, true⟩]⟩
      ⟨1, 4, 7, true⟩ (List.mem_singleton.mpr rfl) rfl).1 1⟩

/-! ## Claim C5 -/

/-- Counterexample to C5 as stated: the claim quantifies over every tour
with zero matching reviews, but a secret tour is filtered out of the
summary write — recomputing tour 1 (secret, zero reviews, stale summary
quantity 7) leaves its quantity at 7, not 0. -/
theorem calc_default_secret_counterexample :
    calcAverageRatings ⟨[], [⟨1, 4, 7, true⟩]⟩ 1 = ⟨[], [⟨1, 4, 7, true⟩]⟩ ∧
    (7 : Nat) ≠ 0 := by
  constructor
  · simp [calcAverageRatings, aggregateStats, matchTour, findByIdAndUpdateSummary]
  · decide

/-- Claim C5 as amended: for every non-secret tour with zero matching
reviews, the recompute writes `ratingsQuantity = 0` and the literal
default `ratingsAverage = 4.5` (the setter fixes 4.5). -/
theorem calcAverageRatings_empty_sets_default (db : DB) (tid : ObjectId)
    (t : TourDoc) (ht : t ∈ db.tours) (hid : t.id = tid)
    (hsec : t.secretTour = false) (he : matchTour tid db.reviews = []) :
    { t with ratingsQuantity := 0, ratingsAverage := (9 : ℚ)/2 } ∈
      (calcAverageRatings db tid).tours := by
  rw [calcAverageRatings_eq_of_nil db tid he]
  have hset : ratingsAverageSet ((9 : ℚ)/2) = (9 : ℚ)/2 := by
    norm_num [ratingsAverageSet, jsRound]
  have := mem_findByIdAndUpdateSummary db.tours tid 0 (some (9/2)) t ht hid hsec
  simpa [tourUpdateDoc, hset] using this

/-- Witness for C5: a visible tour with stale summary and no reviews is
reset to quantity 0, average 4.5. -/
theorem calcAverageRatings_empty_sets_default_witness :
    (⟨1, 4, 7, false⟩ : TourDoc) ∈ (⟨[], [⟨1, 4, 7, false⟩]⟩ : DB).tours ∧
    matchTour 1 (⟨[], [⟨1, 4, 7, false⟩]⟩ : DB).reviews = [] ∧
    (⟨1, (9 : ℚ)/2, 0, false⟩ : TourDoc) ∈
      (calcAverageRatings ⟨[], [⟨1, 4, 7, false⟩]⟩ 1).tours :=
  ⟨List.mem_singleton.mpr rfl, rfl,
    calcAverageRatings_empty_sets_default ⟨[], [⟨1, 4, 7, false⟩]⟩ 1
      ⟨1, 4, 7, false⟩ (List.mem_singleton.mpr rfl) rfl rfl rfl⟩

/-! ## Claim C7 -/

/-- Counterexample to C7 as stated: a review with no `rating` at all —
hence no rating lying in [1,5] — passes validation and is persisted
without error, because the `rating` path carries `min`/`max` validators
but no `required`. -/
theorem create_unrated_review_accepted :
    validateReview ⟨some "Loved it", none, some 1, some 2⟩ = true ∧
    (createReview ⟨[], [⟨1, 4, 0, false⟩]⟩
        ⟨some "Loved it", none, some 1, some 2⟩ true).err = none ∧
    (⟨some "Loved it", none, some 1, some 2⟩ : ReviewDoc) ∈
      (createReview ⟨[], [⟨1, 4, 0, false⟩]⟩
        ⟨some "Loved it", none, some 1, some 2⟩ true).db.reviews ∧
    (⟨some "Loved it", none, some 1, some 2⟩ : ReviewDoc).rating = none := by
  have hv : validateReview ⟨some "Loved it", none, some 1, some 2⟩ = true := by decide
  refine ⟨hv, ?_, ?_, rfl⟩ <;>
    simp [createReview, hv, hasDuplicateKey, calcAverageRatings, aggregateStats, matchTour]

theorem isEmpty_false_iff (s : String) : s.isEmpty = false ↔ s ≠ "" := by
  rw [← Bool.not_eq_true]
  exact not_congr (String.isEmpty_iff s)

/-- Claim C7 as amended: validation succeeds exactly when the review
text is present and non-empty, the tour and user references are
present, and the rating — which may be absent — lies in [1,5] whenever
it is present. -/
theorem validateReview_iff (d : ReviewDoc) :
    validateReview d = true ↔
      ((∃ s, d.review = some s ∧ s ≠ "") ∧
       (∀ q, d.rating = some q → 1 ≤ q ∧ q ≤ 5) ∧
       d.tour.isSome = true ∧ d.user.isSome = true) := by
  obtain ⟨rev, rat, tr, us⟩ := d
  simp only [validateReview, requiredNonEmpty, ratingOk, Bool.and_eq_true]
  cases rev with
  | none => simp
  | some s =>
      cases rat with
      | none => simp [isEmpty_false_iff, and_assoc]
      | some q => simp [isEmpty_false_iff, and_assoc]

/-- Witness for C7's amended validation rule, applied to a concrete
unrated but otherwise well-formed review. -/
theorem validateReview_iff_witness :
    validateReview ⟨some "well organised", none, some 1, some 1⟩ = true :=
  (validateReview_iff ⟨some "well organised", none, some 1, some 1⟩).mpr
    ⟨⟨"well organised", rfl, by decide⟩, fun q h => Option.noConfusion h, rfl, rfl⟩

/-! ## Claim C9 -/

/-- Claim C9: the `rating` path is optional; an unrated review passes
validation, is counted by `$sum: 1` into `nRating`, yet contributes
nothing to `$avg: '$rating'` — here two matching reviews, only one
rated 5, aggregate to `nRating = 2`, `avgRating = 5`, with only one
value entering the average. -/
theorem unrated_review_counted_not_averaged :
    validateReview ⟨some "fine", none, some 3, some 9⟩ = true ∧
    aggregateStats [⟨some "great", some 5, some 3, some 8⟩,
        ⟨some "fine", none, some 3, some 9⟩] 3 = [⟨2, some 5⟩] ∧
    (ratedValues (matchTour 3 [⟨some "great", some 5, some 3, some 8⟩,
        ⟨some "fine", none, some 3, some 9⟩])).length = 1 := by
  refine ⟨by decide, ?_, ?_⟩ <;>
    norm_num [aggregateStats, matchTour, avgRating, ratedValues, List.filterMap_cons]

/-! ## Claim C1 -/

/-- Counterexample to C1 as stated: recompute for tour 1 with ratings
{5, 4, 4} stores `ratingsAverage = 4.3`, because the write passes
through the tour schema's one-decimal rounding setter — not the
unweighted arithmetic mean `13/3` the claim requires. -/
theorem calc_stores_rounded_not_exact_mean :
    (calcAverageRatings ⟨[⟨some "a", some 5, some 1, some 1⟩,
        ⟨some "b", some 4, some 1, some 2⟩, ⟨some "c", some 4, some 1, some 3⟩],
      [⟨1, 4, 0, false⟩]⟩ 1).tours = [⟨1, 43/10, 3, false⟩] ∧
    ((43 : ℚ)/10) ≠ (5 + 4 + 4) / 3 := by
  constructor
  · norm_num [calcAverageRatings, aggregateStats, matchTour, avgRating, ratedValues,
      findByIdAndUpdateSummary, tourUpdateDoc, ratingsAverageSet, jsRound,
      List.filterMap_cons, List.sum_cons, List.sum_nil, Option.getD_some]
  · norm_num

/-- Claim C1 as amended: for every non-secret tour with at least one
matching review, each matching review carrying a rating, the recompute
sets `ratingsQuantity` to the number of matching reviews and stores as
`ratingsAverage` the unweighted arithmetic mean of their ratings as
rounded by the one-decimal setter. -/
theorem calcAverageRatings_count_and_rounded_mean (db : DB) (tid : ObjectId)
    (t : TourDoc) (ht : t ∈ db.tours) (hid : t.id = tid)
    (hsec : t.secretTour = false) (hne : matchTour tid db.reviews ≠ [])
    (hall : ∀ r ∈ matchTour tid db.reviews, r.rating.isSome) :
    { t with
        ratingsQuantity := (matchTour tid db.reviews).length
        ratingsAverage := ratingsAverageSet
          ((ratedValues (matchTour tid db.reviews)).sum /
            ((matchTour tid db.reviews).length : ℚ)) } ∈
      (calcAverageRatings db tid).tours := by
  rw [calcAverageRatings_eq_of_ne_nil db tid hne]
  have hlen := ratedValues_length_of_all_rated _ hall
  have hvne : ratedValues (matchTour tid db.reviews) ≠ [] := by
    intro hcon
    apply hne
    apply List.eq_nil_of_length_eq_zero
    rw [← hlen, hcon, List.length_nil]
  have havg : avgRating (matchTour tid db.reviews) =
      some ((ratedValues (matchTour tid db.reviews)).sum /
        ((matchTour tid db.reviews).length : ℚ)) := by
    simp [avgRating, List.isEmpty_eq_false.mpr hvne, hlen]
  rw [havg]
  have hmem := mem_findByIdAndUpdateSummary db.tours tid
    (matchTour tid db.reviews).length
    (some ((ratedValues (matchTour tid db.reviews)).sum /
      ((matchTour tid db.reviews).length : ℚ))) t ht hid hsec
  simpa [tourUpdateDoc] using hmem

/-- Witness for C1's amended statement: tour 1 with ratings {5, 4} gets
quantity 2 and average `(5+4)/2 = 4.5` (fixed by the setter). -/
theorem calcAverageRatings_count_and_rounded_mean_witness :
    (⟨1, 4, 0, false⟩ : TourDoc) ∈
      (⟨[⟨some "a", some 5, some 1, some 1⟩, ⟨some "b", some 4, some 1, some 2⟩],
        [⟨1, 4, 0, false⟩]⟩ : DB).tours ∧
    matchTour 1 [⟨some "a", some 5, some 1, some 1⟩, ⟨some "b", some 4, some 1, some 2⟩] ≠ [] ∧
    (∀ r ∈ matchTour 1 [⟨some "a", some 5, some 1, some 1⟩,
        ⟨some "b", some 4, some 1, some 2⟩], r.rating.isSome) ∧
    { (⟨1, 4, 0, false⟩ : TourDoc) with
        ratingsQuantity := (matchTour 1 [⟨some "a", some 5, some 1, some 1⟩,
          ⟨some "b", some 4, some 1, some 2⟩]).length
        ratingsAverage := ratingsAverageSet
          ((ratedValues (matchTour 1 [⟨some "a", some 5, some 1, some 1⟩,
              ⟨some "b", some 4, some 1, some 2⟩])).sum /
            ((matchTour 1 [⟨some "a", some 5, some 1, some 1⟩,
              ⟨some "b", some 4, some 1, some 2⟩]).length : ℚ)) } ∈
      (calcAverageRatings ⟨[⟨some "a", some 5, some 1, some 1⟩,
          ⟨some "b", some 4, some 1, some 2⟩], [⟨1, 4, 0, false⟩]⟩ 1).tours :=
  ⟨List.mem_singleton.mpr rfl, by decide, by decide,
    calcAverageRatings_count_and_rounded_mean
      ⟨[⟨some "a", some 5, some 1, some 1⟩, ⟨some "b", some 4, some 1, some 2⟩],
        [⟨1, 4, 0, false⟩]⟩ 1 ⟨1, 4, 0, false⟩
      (List.mem_singleton.mpr rfl) rfl rfl (by decide) (by decide)⟩

/-! ## Claim C8 -/

/-- Claim C8: every summary write puts `ratingsAverage` through the
setter `Math.round(val * 10) / 10`; hence ratings {5, 5, 4} on tour 2
store `4.7` and not the exact mean `14/3`. -/
theorem ratingsAverage_setter_rounds :
    (∀ (t : TourDoc) (quantity : Nat) (v : ℚ),
        (tourUpdateDoc t quantity (some v)).ratingsAverage = (⌊v * 10 + 1/2⌋ : ℚ) / 10) ∧
    (calcAverageRatings ⟨[⟨some "a", some 5, some 2, some 1⟩,
        ⟨some "b", some 5, some 2, some 2⟩, ⟨some "c", some 4, some 2, some 3⟩],
      [⟨2, 4, 0, false⟩]⟩ 2).tours = [⟨2, 47/10, 3, false⟩] ∧
    ((47 : ℚ)/10) ≠ 14/3 := by
  refine ⟨fun t quantity v => by simp [tourUpdateDoc, ratingsAverageSet, jsRound], ?_, by norm_num⟩
  norm_num [calcAverageRatings, aggregateStats, matchTour, avgRating, ratedValues,
    findByIdAndUpdateSummary, tourUpdateDoc, ratingsAverageSet, jsRound,
    List.filterMap_cons, List.sum_cons, List.sum_nil, Option.getD_some]

end Natours
